import Mathlib

/-!
# Verification of the advanced-character-controller core

Shallow embedding, over the real numbers, of the character-controller code in
`src/render/controllers/character-controller.ts`, its math utilities in
`src/render/controllers/utils/math.ts`, and the physics registration helper
`addPhysics` in `src/render/physics/physics.ts`.

JavaScript numbers are modelled as real numbers.  Each embedded definition
mirrors one source function; the surrounding physics/rendering engine (Rapier
raycasts, the viewport) is abstracted as a `World` parameter supplying the
results of the external queries that the controller makes.
-/

set_option linter.unusedVariables false

noncomputable section

/-! ## Math utilities (`utils/math.ts`) -/

/-- `lerp` from `utils/math.ts`: `x * (1 - a) + y * a`. -/
def lerp (x y a : ℝ) : ℝ := x * (1 - a) + y * a

/-- `easeOutExpo` from `utils/math.ts`: `x === 1 ? 1 : 1 - Math.pow(2, -10 * x)`. -/
def easeOutExpo (x : ℝ) : ℝ := if x = 1 then 1 else 1 - (2 : ℝ) ^ ((-10 : ℝ) * x)

/-- `EaseOutCirc` from `utils/math.ts`: `Math.sqrt(1.0 - Math.pow(x - 1.0, 2.0))`. -/
def EaseOutCirc (x : ℝ) : ℝ := Real.sqrt (1 - (x - 1) ^ 2)

/-- `UpDownCirc` from `utils/math.ts`: `Math.sin(EaseOutCirc(x) * Math.PI)`. -/
def UpDownCirc (x : ℝ) : ℝ := Real.sin (EaseOutCirc x * Real.pi)

/-- `clamp` from `utils/math.ts`: `Math.min(Math.max(x, a), b)`. -/
def clamp (x a b : ℝ) : ℝ := min (max x a) b

/-! ## Constants (`character-controller.ts`, `physics/utils/constants.ts`) -/

def MIN_ZOOM_LEVEL : ℝ := 0.001
def MAX_ZOOM_LEVEL : ℝ := 20
def SCROLL_LEVEL_STEP : ℝ := 1.5
def SCROLL_ANIMATION_SPEED : ℝ := 2
def JUMP_DURATION : ℝ := 0.5
def JUMP_AMPLITUDE : ℝ := 0.5

/-- `GRAVITY.y` from `physics/utils/constants.ts` (`new THREE.Vector3(0.0, -9.81, 0.0)`). -/
def GRAVITY_Y : ℝ := -9.81

/-! ## Generic facts about the math utilities -/

theorem lerp_zero_right (x y : ℝ) : lerp x y 0 = x := by simp [lerp]

theorem lerp_zero_zero (a : ℝ) : lerp 0 0 a = 0 := by simp [lerp]

theorem clamp_le_right (x a b : ℝ) : clamp x a b ≤ b := min_le_right _ _

theorem clamp_ge_left (x a b : ℝ) (h : a ≤ b) : a ≤ clamp x a b :=
  le_min (le_max_right _ _) h

theorem easeOutExpo_zero : easeOutExpo 0 = 0 := by
  simp [easeOutExpo, Real.rpow_zero]

theorem easeOutExpo_nonneg_le_one {x : ℝ} (hx : 0 ≤ x) :
    0 ≤ easeOutExpo x ∧ easeOutExpo x ≤ 1 := by
  unfold easeOutExpo
  split
  · exact ⟨zero_le_one, le_refl 1⟩
  · have hpow_pos : (0 : ℝ) < (2 : ℝ) ^ ((-10 : ℝ) * x) :=
      Real.rpow_pos_of_pos (by norm_num) _
    have hpow_le : (2 : ℝ) ^ ((-10 : ℝ) * x) ≤ 1 :=
      Real.rpow_le_one_of_one_le_of_nonpos (by norm_num) (by nlinarith)
    constructor <;> linarith

theorem lerp_mem_of_mem {x y a lo hi : ℝ} (hx : lo ≤ x) (hx' : x ≤ hi)
    (hy : lo ≤ y) (hy' : y ≤ hi) (ha : 0 ≤ a) (ha' : a ≤ 1) :
    lo ≤ lerp x y a ∧ lerp x y a ≤ hi := by
  unfold lerp
  constructor <;> nlinarith

/-! ## ZoomController (`character-controller.ts`, lines 413-462)

State fields mirror the class fields of `ZoomController`; `update` mirrors
`ZoomController.update(zoomLevel, timestamp, timeDiff)` (the `timeDiff`
argument is accepted but never read, as in the source). -/

structure ZoomState where
  zoom : ℝ
  lastZoomLevel : ℝ
  startZoomAnimation : ℝ
  isAnimating : Bool
  startingZoom : ℝ

namespace ZoomController

/-- The constructor of `ZoomController`. -/
def init : ZoomState :=
  { zoom := MIN_ZOOM_LEVEL
    startingZoom := 0
    lastZoomLevel := 0
    startZoomAnimation := 0
    isAnimating := false }

/-- `ZoomController.update` translated statement by statement from the source. -/
def update (s : ZoomState) (zoomLevel timestamp timeDiff : ℝ) : ZoomState :=
  let time := timestamp * SCROLL_ANIMATION_SPEED
  let zlClamped := clamp zoomLevel MIN_ZOOM_LEVEL MAX_ZOOM_LEVEL
  -- `const zoomLevelHasChanged = this.lastZoomLevel !== zoomLevel`
  let s1 : ZoomState :=
    if s.lastZoomLevel = zoomLevel then s
    else { s with startingZoom := s.zoom, startZoomAnimation := time, isAnimating := true }
  let s2 : ZoomState :=
    if s1.isAnimating then
      let progress := time - s1.startZoomAnimation
      let z := lerp s1.startingZoom zlClamped (easeOutExpo progress)
      if progress ≥ 1 then { s1 with zoom := z, isAnimating := false }
      else { s1 with zoom := z }
    else s1
  { s2 with lastZoomLevel := zoomLevel }

end ZoomController

/-- One recorded call to `ZoomController.update`. -/
structure ZoomCall where
  zoomLevel : ℝ
  timestamp : ℝ
  timeDiff : ℝ

/-- Folding a sequence of `update` calls from a starting state. -/
def ZoomController.process (s : ZoomState) (calls : List ZoomCall) : ZoomState :=
  calls.foldl (fun st c => ZoomController.update st c.zoomLevel c.timestamp c.timeDiff) s

/-- Inductive invariant for the zoom range proof: the zoom is in range, and if an
animation is running, its stored start value is in range and its start time is
no later than (the scaled) `t0`, a lower bound for all future timestamps. -/
def ZoomInv (s : ZoomState) (t0 : ℝ) : Prop :=
  MIN_ZOOM_LEVEL ≤ s.zoom ∧ s.zoom ≤ MAX_ZOOM_LEVEL ∧
    (s.isAnimating = true →
      MIN_ZOOM_LEVEL ≤ s.startingZoom ∧ s.startingZoom ≤ MAX_ZOOM_LEVEL ∧
        s.startZoomAnimation ≤ SCROLL_ANIMATION_SPEED * t0)

theorem zoomInv_init (t0 : ℝ) : ZoomInv ZoomController.init t0 := by
  refine ⟨le_refl _, ?_, ?_⟩
  · norm_num [ZoomController.init, MIN_ZOOM_LEVEL, MAX_ZOOM_LEVEL]
  · intro h; simp [ZoomController.init] at h

/-- Branch computation: unchanged target, no running animation. -/
theorem ZoomController.update_eq_of_idle {s : ZoomState} {z t dt : ℝ}
    (hchange : s.lastZoomLevel = z) (ha : s.isAnimating = false) :
    ZoomController.update s z t dt = { s with lastZoomLevel := z } := by
  simp [ZoomController.update, hchange, ha]

/-- Branch computation: unchanged target, animation running, progress ≥ 1. -/
theorem ZoomController.update_eq_of_animating_done {s : ZoomState} {z t dt : ℝ}
    (hchange : s.lastZoomLevel = z) (ha : s.isAnimating = true)
    (hp : t * SCROLL_ANIMATION_SPEED - s.startZoomAnimation ≥ 1) :
    ZoomController.update s z t dt =
      { s with
        zoom := lerp s.startingZoom (clamp z MIN_ZOOM_LEVEL MAX_ZOOM_LEVEL)
          (easeOutExpo (t * SCROLL_ANIMATION_SPEED - s.startZoomAnimation))
        isAnimating := false
        lastZoomLevel := z } := by
  simp [ZoomController.update, hchange, ha, hp]

/-- Branch computation: unchanged target, animation running, progress < 1. -/
theorem ZoomController.update_eq_of_animating_running {s : ZoomState} {z t dt : ℝ}
    (hchange : s.lastZoomLevel = z) (ha : s.isAnimating = true)
    (hp : ¬ (t * SCROLL_ANIMATION_SPEED - s.startZoomAnimation ≥ 1)) :
    ZoomController.update s z t dt =
      { s with
        zoom := lerp s.startingZoom (clamp z MIN_ZOOM_LEVEL MAX_ZOOM_LEVEL)
          (easeOutExpo (t * SCROLL_ANIMATION_SPEED - s.startZoomAnimation))
        lastZoomLevel := z } := by
  simp [ZoomController.update, hchange, ha, hp]

/-- Branch computation: target changed.  The animation restarts from the current
zoom (`easeOutExpo 0 = 0`, so the assigned zoom equals the old zoom). -/
theorem ZoomController.update_eq_of_change {s : ZoomState} {z t dt : ℝ}
    (hchange : s.lastZoomLevel ≠ z) :
    ZoomController.update s z t dt =
      { s with
        startingZoom := s.zoom
        startZoomAnimation := t * SCROLL_ANIMATION_SPEED
        isAnimating := true
        zoom := s.zoom
        lastZoomLevel := z } := by
  have h0 : ¬ (t * SCROLL_ANIMATION_SPEED - t * SCROLL_ANIMATION_SPEED ≥ 1) := by
    rw [sub_self]; norm_num
  simp [ZoomController.update, hchange, h0, easeOutExpo_zero, lerp_zero_right,
    (show ¬((1 : ℝ) ≤ 0) by norm_num)]

theorem zoomInv_step {s : ZoomState} {t0 : ℝ} (hInv : ZoomInv s t0)
    (z t1 dt : ℝ) (ht : t0 ≤ t1) :
    ZoomInv (ZoomController.update s z t1 dt) t1 := by
  obtain ⟨hlo, hhi, hanim⟩ := hInv
  have hminmax : MIN_ZOOM_LEVEL ≤ MAX_ZOOM_LEVEL := by
    norm_num [MIN_ZOOM_LEVEL, MAX_ZOOM_LEVEL]
  have hzl_lo : MIN_ZOOM_LEVEL ≤ clamp z MIN_ZOOM_LEVEL MAX_ZOOM_LEVEL :=
    clamp_ge_left _ _ _ hminmax
  have hzl_hi : clamp z MIN_ZOOM_LEVEL MAX_ZOOM_LEVEL ≤ MAX_ZOOM_LEVEL :=
    clamp_le_right _ _ _
  have hspeed : (0 : ℝ) ≤ SCROLL_ANIMATION_SPEED := by norm_num [SCROLL_ANIMATION_SPEED]
  have hmul : SCROLL_ANIMATION_SPEED * t0 ≤ SCROLL_ANIMATION_SPEED * t1 :=
    mul_le_mul_of_nonneg_left ht hspeed
  by_cases hchange : s.lastZoomLevel = z
  · by_cases ha : s.isAnimating = true
    · obtain ⟨hs_lo, hs_hi, hstart⟩ := hanim ha
      have hprog : 0 ≤ t1 * SCROLL_ANIMATION_SPEED - s.startZoomAnimation := by nlinarith
      obtain ⟨he0, he1⟩ := easeOutExpo_nonneg_le_one hprog
      obtain ⟨hz_lo, hz_hi⟩ := lerp_mem_of_mem hs_lo hs_hi hzl_lo hzl_hi he0 he1
      by_cases hp : t1 * SCROLL_ANIMATION_SPEED - s.startZoomAnimation ≥ 1
      · rw [ZoomController.update_eq_of_animating_done hchange ha hp]
        exact ⟨hz_lo, hz_hi, fun h => by simp at h⟩
      · rw [ZoomController.update_eq_of_animating_running hchange ha hp]
        refine ⟨hz_lo, hz_hi, ?_⟩
        intro _
        refine ⟨hs_lo, hs_hi, ?_⟩
        show s.startZoomAnimation ≤ SCROLL_ANIMATION_SPEED * t1
        nlinarith
    · have ha' : s.isAnimating = false := by
        cases h : s.isAnimating
        · rfl
        · exact absurd h ha
      rw [ZoomController.update_eq_of_idle hchange ha']
      exact ⟨hlo, hhi, fun h => absurd h (by simp [ha'])⟩
  · rw [ZoomController.update_eq_of_change hchange]
    refine ⟨hlo, hhi, ?_⟩
    intro _
    refine ⟨hlo, hhi, ?_⟩
    show t1 * SCROLL_ANIMATION_SPEED ≤ SCROLL_ANIMATION_SPEED * t1
    nlinarith

theorem zoomInv_process (calls : List ZoomCall) :
    ∀ (s : ZoomState) (t0 : ℝ), ZoomInv s t0 →
      List.Chain' (· ≤ ·) (t0 :: calls.map ZoomCall.timestamp) →
      MIN_ZOOM_LEVEL ≤ (ZoomController.process s calls).zoom ∧
        (ZoomController.process s calls).zoom ≤ MAX_ZOOM_LEVEL := by
  induction calls with
  | nil => intro s t0 hInv _; exact ⟨hInv.1, hInv.2.1⟩
  | cons c rest ih =>
    intro s t0 hInv hchain
    simp only [List.map_cons, List.chain'_cons] at hchain
    obtain ⟨ht01, hchain'⟩ := hchain
    have hInv' := zoomInv_step hInv c.zoomLevel c.timestamp c.timeDiff ht01
    simpa [ZoomController.process] using
      ih (ZoomController.update s c.zoomLevel c.timestamp c.timeDiff) c.timestamp hInv' hchain'

/-- C4: starting from construction, for any call sequence with nondecreasing
timestamps and arbitrary zoom-level arguments, the current zoom distance stays
within `[MIN_ZOOM_LEVEL, MAX_ZOOM_LEVEL] = [0.001, 20]`. -/
theorem zoom_always_in_range (calls : List ZoomCall)
    (hmono : List.Chain' (· ≤ ·) (calls.map ZoomCall.timestamp)) :
    MIN_ZOOM_LEVEL ≤ (ZoomController.process ZoomController.init calls).zoom ∧
      (ZoomController.process ZoomController.init calls).zoom ≤ MAX_ZOOM_LEVEL := by
  cases calls with
  | nil =>
    constructor
    · exact le_refl _
    · norm_num [ZoomController.process, ZoomController.init, MIN_ZOOM_LEVEL, MAX_ZOOM_LEVEL]
  | cons c rest =>
    refine zoomInv_process (c :: rest) ZoomController.init c.timestamp (zoomInv_init _) ?_
    simp only [List.map_cons, List.chain'_cons]
    exact ⟨le_refl _, by simpa using hmono⟩

/-- Witness for C4 at a concrete call sequence. -/
theorem zoom_always_in_range_witness :
    MIN_ZOOM_LEVEL ≤ (ZoomController.process ZoomController.init
        [⟨5, 1, 0.016⟩, ⟨0.5, 2, 0.016⟩, ⟨0.5, 3, 0.016⟩]).zoom ∧
      (ZoomController.process ZoomController.init
        [⟨5, 1, 0.016⟩, ⟨0.5, 2, 0.016⟩, ⟨0.5, 3, 0.016⟩]).zoom ≤ MAX_ZOOM_LEVEL :=
  zoom_always_in_range _ (by norm_num [List.chain'_cons])

/-- C5: when the requested zoom level differs from the previously requested
target, the zoom immediately after the call equals the zoom immediately before
it — the animation restarts from the current interpolated value with no jump. -/
theorem zoom_no_jump_on_target_change (s : ZoomState) (z t dt : ℝ)
    (h : z ≠ s.lastZoomLevel) :
    (ZoomController.update s z t dt).zoom = s.zoom := by
  rw [ZoomController.update_eq_of_change (fun he => h he.symm)]

/-- Witness for C5 at a concrete state and call. -/
theorem zoom_no_jump_on_target_change_witness :
    (5 : ℝ) ≠ ZoomController.init.lastZoomLevel ∧
      (ZoomController.update ZoomController.init 5 3 0.016).zoom =
        ZoomController.init.zoom :=
  ⟨by norm_num [ZoomController.init],
    zoom_no_jump_on_target_change ZoomController.init 5 3 0.016
      (by norm_num [ZoomController.init])⟩

/-- A zoom state mid-animation toward target 5, used for the C6 theorems. -/
def zoomStateMidAnim : ZoomState :=
  { zoom := 1, lastZoomLevel := 5, startZoomAnimation := 0,
    isAnimating := true, startingZoom := 1 }

/-- An idle zoom state whose last requested target is 5. -/
def zoomStateIdle : ZoomState :=
  { zoom := 3, lastZoomLevel := 5, startZoomAnimation := 2,
    isAnimating := false, startingZoom := 1 }

/-- C6 (amended): with an unchanged target, once the normalized progress reaches
or exceeds 1 the animation is marked complete, and every further call with the
same target leaves the state (hence the zoom) unchanged — the zoom is held at
the value reached when the animation completed, which is not in general the
clamped target. -/
theorem zoom_holds_after_completion (s : ZoomState) (z t dt : ℝ) :
    (s.lastZoomLevel = z → s.isAnimating = true →
      t * SCROLL_ANIMATION_SPEED - s.startZoomAnimation ≥ 1 →
      (ZoomController.update s z t dt).isAnimating = false) ∧
    (s.lastZoomLevel = z → s.isAnimating = false →
      ZoomController.update s z t dt = s) := by
  constructor
  · intro hc ha hp
    rw [ZoomController.update_eq_of_animating_done hc ha hp]
  · intro hc ha
    rw [ZoomController.update_eq_of_idle hc ha, ← hc]

/-- Witness for C6's amended theorem at concrete states. -/
theorem zoom_holds_after_completion_witness :
    (ZoomController.update zoomStateMidAnim 5 1 0.016).isAnimating = false ∧
      ZoomController.update zoomStateIdle 5 9 0.016 = zoomStateIdle :=
  ⟨(zoom_holds_after_completion zoomStateMidAnim 5 1 0.016).1 rfl rfl
      (by norm_num [zoomStateMidAnim, SCROLL_ANIMATION_SPEED]),
    (zoom_holds_after_completion zoomStateIdle 5 9 0.016).2 rfl rfl⟩

/-- C6 counterexample: the completing call overshoots (progress 2 > 1), so the
held zoom is `lerp 1 5 (1 - 2^(-20)) = 5 - 4·2^(-20)`, which differs from the
clamped target 5; further same-target calls keep that value, refuting "holds
the zoom at the (clamped) target value". -/
theorem zoom_not_exact_target_after_completion :
    (ZoomController.update zoomStateMidAnim 5 1 0.016).isAnimating = false ∧
      (ZoomController.update (ZoomController.update zoomStateMidAnim 5 1 0.016)
          5 2 0.016).zoom ≠ clamp 5 MIN_ZOOM_LEVEL MAX_ZOOM_LEVEL := by
  have hp : (1 : ℝ) * SCROLL_ANIMATION_SPEED - zoomStateMidAnim.startZoomAnimation ≥ 1 := by
    norm_num [zoomStateMidAnim, SCROLL_ANIMATION_SPEED]
  have h1 := @ZoomController.update_eq_of_animating_done zoomStateMidAnim 5 1 0.016 rfl rfl hp
  refine ⟨by rw [h1], ?_⟩
  rw [h1, ZoomController.update_eq_of_idle rfl rfl]
  have hclamp : clamp 5 MIN_ZOOM_LEVEL MAX_ZOOM_LEVEL = 5 := by
    norm_num [clamp, MIN_ZOOM_LEVEL, MAX_ZOOM_LEVEL]
  have hease : easeOutExpo ((1 : ℝ) * SCROLL_ANIMATION_SPEED -
      zoomStateMidAnim.startZoomAnimation) = 1 - (2 : ℝ) ^ ((-20 : ℝ)) := by
    norm_num [easeOutExpo, zoomStateMidAnim, SCROLL_ANIMATION_SPEED]
  have hpos : (0 : ℝ) < (2 : ℝ) ^ ((-20 : ℝ)) :=
    Real.rpow_pos_of_pos (by norm_num) _
  show lerp zoomStateMidAnim.startingZoom (clamp 5 MIN_ZOOM_LEVEL MAX_ZOOM_LEVEL)
      (easeOutExpo ((1 : ℝ) * SCROLL_ANIMATION_SPEED -
        zoomStateMidAnim.startZoomAnimation)) ≠ clamp 5 MIN_ZOOM_LEVEL MAX_ZOOM_LEVEL
  rw [hclamp, hease]
  show lerp 1 5 (1 - (2 : ℝ) ^ ((-20 : ℝ))) ≠ 5
  unfold lerp
  intro hEq
  nlinarith

/-! ## HeightController (`character-controller.ts`, lines 477-559)

`update` mirrors `HeightController.update(timestamp, timeDiff)`; as in the
source, the `timeDiff` argument is accepted but never read. -/

structure HeightState where
  height : ℝ
  lastHeight : ℝ
  movePerFrame : ℝ
  lastGroundHeight : ℝ
  startFallAnimation : ℝ
  isAnimating : Bool
  grounded : Bool
  jumpFactor : ℝ
  startJumpAnimation : ℝ

namespace HeightController

/-- The constructor of `HeightController`. -/
def init : HeightState :=
  { height := 0, lastHeight := 0, movePerFrame := 0, lastGroundHeight := 0,
    startFallAnimation := 0, startJumpAnimation := 0, jumpFactor := 0,
    isAnimating := false, grounded := false }

/-- `HeightController.update` translated statement by statement: gravity part
(`this.isAnimating = !this.grounded` selects free fall or reset), then the jump
part, then `this.lastHeight = this.height`. -/
def update (s : HeightState) (timestamp timeDiff : ℝ) : HeightState :=
  let s1 : HeightState :=
    if s.grounded then
      { s with isAnimating := false, height := 0, lastHeight := 0, movePerFrame := 0,
               startFallAnimation := timestamp }
    else
      let t := timestamp - s.startFallAnimation
      let h := 0.5 * GRAVITY_Y * t * t
      { s with isAnimating := true, height := h, movePerFrame := h - s.lastHeight }
  let jt := timestamp - s1.startJumpAnimation
  let s2 : HeightState :=
    if s1.grounded = true ∧ jt > JUMP_DURATION then
      { s1 with jumpFactor := 0, startJumpAnimation := timestamp }
    else
      { s1 with movePerFrame := (s1.movePerFrame +
          lerp 0 (s1.jumpFactor * JUMP_AMPLITUDE)
            (UpDownCirc (clamp (jt / JUMP_DURATION) 0 1))) }
  { s2 with lastHeight := s2.height }

/-- `HeightController.setGrounded`. -/
def setGrounded (s : HeightState) (g : Bool) : HeightState := { s with grounded := g }

/-- `HeightController.setJumpFactor`. -/
def setJumpFactor (s : HeightState) (j : ℝ) : HeightState := { s with jumpFactor := j }

end HeightController

/-- C1 (amended): while grounded, `update` always resets the fall timer
(`startFallAnimation := t`), and yields a zero vertical delta provided no jump
is in flight (jump factor 0, or the jump-duration window since trigger has
elapsed).  While a jump is in flight the delta is the jump-arc offset instead. -/
theorem heightUpdate_grounded (s : HeightState) (t dt : ℝ) (hg : s.grounded = true) :
    (HeightController.update s t dt).startFallAnimation = t ∧
      ((s.jumpFactor = 0 ∨ t - s.startJumpAnimation > JUMP_DURATION) →
        (HeightController.update s t dt).movePerFrame = 0) := by
  by_cases hj : t - s.startJumpAnimation > JUMP_DURATION
  · constructor
    · simp [HeightController.update, hg, hj]
    · intro _
      simp [HeightController.update, hg, hj]
  · constructor
    · simp [HeightController.update, hg, hj]
    · rintro (h0 | hgt)
      · simp [HeightController.update, hg, hj, h0, lerp_zero_zero]
      · exact absurd hgt hj

/-- Witness for C1's amended theorem: a grounded state with no jump pending. -/
theorem heightUpdate_grounded_witness :
    (HeightController.update { HeightController.init with grounded := true }
        3 0.016).startFallAnimation = 3 ∧
      (HeightController.update { HeightController.init with grounded := true }
        3 0.016).movePerFrame = 0 := by
  have h := heightUpdate_grounded { HeightController.init with grounded := true }
    3 0.016 rfl
  exact ⟨h.1, h.2 (Or.inl rfl)⟩

/-- A grounded state with a full-strength jump triggered at time 0. -/
def heightStateJumping : HeightState :=
  { height := 0, lastHeight := 0, movePerFrame := 0, lastGroundHeight := 0,
    startFallAnimation := 0, startJumpAnimation := 0, jumpFactor := 1,
    isAnimating := false, grounded := true }

/-- Branch computation for `HeightController.update`: grounded, jump window not
yet elapsed — the frame delta is exactly the jump-arc offset. -/
theorem HeightController.update_movePerFrame_of_grounded_inflight
    {s : HeightState} {t dt : ℝ} (hg : s.grounded = true)
    (hj : ¬ (t - s.startJumpAnimation > JUMP_DURATION)) :
    (HeightController.update s t dt).movePerFrame =
      lerp 0 (s.jumpFactor * JUMP_AMPLITUDE)
        (UpDownCirc (clamp ((t - s.startJumpAnimation) / JUMP_DURATION) 0 1)) := by
  simp [HeightController.update, hg, hj]

/-- C1 counterexample: while grounded with a jump in flight (jump factor 1,
quarter way through the window, at t = 0.25), `update` yields
`movePerFrame = 0.5 · sin(√0.75 · π) ≠ 0`, refuting "grounded always yields a
vertical delta of zero". -/
theorem heightUpdate_grounded_movePerFrame_ne_zero :
    heightStateJumping.grounded = true ∧
      (HeightController.update heightStateJumping 0.25 0.016).movePerFrame ≠ 0 := by
  refine ⟨rfl, ?_⟩
  have hsq1 : Real.sqrt 0.75 < 1 := by
    rw [show (1 : ℝ) = Real.sqrt 1 by rw [Real.sqrt_one]]
    exact Real.sqrt_lt_sqrt (by norm_num) (by norm_num)
  have hsin : 0 < Real.sin (Real.sqrt 0.75 * Real.pi) := by
    apply Real.sin_pos_of_pos_of_lt_pi
    · have h0 : (0 : ℝ) < Real.sqrt 0.75 := Real.sqrt_pos.mpr (by norm_num)
      nlinarith [Real.pi_pos]
    · nlinarith [Real.pi_pos]
  have hj : ¬ ((0.25 : ℝ) - heightStateJumping.startJumpAnimation > JUMP_DURATION) := by
    norm_num [heightStateJumping, JUMP_DURATION]
  rw [HeightController.update_movePerFrame_of_grounded_inflight rfl hj]
  have hc : clamp (((0.25 : ℝ) - heightStateJumping.startJumpAnimation) /
      JUMP_DURATION) 0 1 = 0.5 := by
    norm_num [clamp, heightStateJumping, JUMP_DURATION]
  rw [hc]
  have hUD : UpDownCirc 0.5 = Real.sin (Real.sqrt 0.75 * Real.pi) := by
    norm_num [UpDownCirc, EaseOutCirc]
  rw [hUD]
  have hjf : heightStateJumping.jumpFactor = 1 := rfl
  rw [hjf]
  unfold lerp JUMP_AMPLITUDE
  intro hEq
  nlinarith [hsin]

/-! ## InputManager (`character-controller.ts`, lines 100-338)

`MouseState` mirrors the source type; the key map is modelled by a record of
the seven key codes the controller ever queries (`KEYS`). -/

structure MouseState where
  leftButton : Bool
  rightButton : Bool
  mouseXDelta : ℝ
  mouseYDelta : ℝ
  mouseWheelDelta : ℝ

structure KeysState where
  w : Bool
  a : Bool
  s : Bool
  d : Bool
  space : Bool
  shiftL : Bool
  shiftR : Bool

structure InputState where
  mouse : MouseState
  keys : KeysState
  pointerLocked : Bool

/-- The key codes queried by the controller (`enum KEYS`). -/
inductive Key where
  | w | a | s | d | space | shiftL | shiftR

def KeysState.get : KeysState → Key → Bool
  | ks, Key.w => ks.w
  | ks, Key.a => ks.a
  | ks, Key.s => ks.s
  | ks, Key.d => ks.d
  | ks, Key.space => ks.space
  | ks, Key.shiftL => ks.shiftL
  | ks, Key.shiftR => ks.shiftR

namespace InputManager

/-- The constructor of `InputManager`: zero mouse state, no keys pressed,
pointer not locked. -/
def init : InputState :=
  { mouse := { leftButton := false, rightButton := false, mouseXDelta := 0,
               mouseYDelta := 0, mouseWheelDelta := 0 }
    keys := { w := false, a := false, s := false, d := false, space := false,
              shiftL := false, shiftR := false }
    pointerLocked := false }

/-- `InputManager.onMouseWheel`: only reacts while pointer-locked; scrolling up
(`deltaY < 0`) steps down clamped at `MIN_ZOOM_LEVEL`, scrolling down steps up
clamped at `MAX_ZOOM_LEVEL`. -/
def onMouseWheel (inp : InputState) (deltaY : ℝ) : InputState :=
  if inp.pointerLocked then
    if deltaY < 0 then
      { inp with mouse.mouseWheelDelta := (max (inp.mouse.mouseWheelDelta -
          SCROLL_LEVEL_STEP) MIN_ZOOM_LEVEL) }
    else if deltaY > 0 then
      { inp with mouse.mouseWheelDelta := (min (inp.mouse.mouseWheelDelta +
          SCROLL_LEVEL_STEP) MAX_ZOOM_LEVEL) }
    else inp
  else inp

/-- `InputManager.isKeyDown`: true only while pointer-locked and the key is
recorded as pressed. -/
def isKeyDown (inp : InputState) (k : Key) : Bool :=
  inp.pointerLocked && inp.keys.get k

/-- `InputManager.update`: reset the per-frame mouse deltas. -/
def update (inp : InputState) : InputState :=
  { inp with mouse.mouseXDelta := 0, mouse.mouseYDelta := 0 }

end InputManager

/-- External stimuli relevant to the wheel accumulator: wheel events (with any
pointer-lock state) and `pointerlockchange` transitions. -/
inductive InputEvent where
  | wheel (deltaY : ℝ)
  | lockChange (locked : Bool)

def InputManager.applyEvent (inp : InputState) : InputEvent → InputState
  | InputEvent.wheel d => InputManager.onMouseWheel inp d
  | InputEvent.lockChange b => { inp with pointerLocked := b }

/-- A reachable input state: construction followed by a sequence of events. -/
def InputManager.runEvents (evs : List InputEvent) : InputState :=
  evs.foldl InputManager.applyEvent InputManager.init

theorem onMouseWheel_wheelDelta_bounds (inp : InputState) (d : ℝ)
    (h0 : 0 ≤ inp.mouse.mouseWheelDelta)
    (h1 : inp.mouse.mouseWheelDelta ≤ MAX_ZOOM_LEVEL) :
    0 ≤ (InputManager.onMouseWheel inp d).mouse.mouseWheelDelta ∧
      (InputManager.onMouseWheel inp d).mouse.mouseWheelDelta ≤ MAX_ZOOM_LEVEL := by
  unfold InputManager.onMouseWheel
  split_ifs with hl hneg hpos
  · constructor
    · show (0 : ℝ) ≤ max (inp.mouse.mouseWheelDelta - SCROLL_LEVEL_STEP) MIN_ZOOM_LEVEL
      have h2 : (0 : ℝ) ≤ MIN_ZOOM_LEVEL := by norm_num [MIN_ZOOM_LEVEL]
      exact le_trans h2 (le_max_right _ _)
    · show max (inp.mouse.mouseWheelDelta - SCROLL_LEVEL_STEP) MIN_ZOOM_LEVEL ≤ MAX_ZOOM_LEVEL
      apply max_le
      · have h2 : (0 : ℝ) ≤ SCROLL_LEVEL_STEP := by norm_num [SCROLL_LEVEL_STEP]
        linarith
      · norm_num [MIN_ZOOM_LEVEL, MAX_ZOOM_LEVEL]
  · constructor
    · show (0 : ℝ) ≤ min (inp.mouse.mouseWheelDelta + SCROLL_LEVEL_STEP) MAX_ZOOM_LEVEL
      apply le_min
      · have h2 : (0 : ℝ) ≤ SCROLL_LEVEL_STEP := by norm_num [SCROLL_LEVEL_STEP]
        linarith
      · norm_num [MAX_ZOOM_LEVEL]
    · show min (inp.mouse.mouseWheelDelta + SCROLL_LEVEL_STEP) MAX_ZOOM_LEVEL ≤ MAX_ZOOM_LEVEL
      exact min_le_right _ _
  · exact ⟨h0, h1⟩
  · exact ⟨h0, h1⟩

theorem onMouseWheel_effective_bounds (inp : InputState) (dy : ℝ)
    (hl : inp.pointerLocked = true) (hdy : dy ≠ 0)
    (h0 : 0 ≤ inp.mouse.mouseWheelDelta)
    (h1 : inp.mouse.mouseWheelDelta ≤ MAX_ZOOM_LEVEL) :
    MIN_ZOOM_LEVEL ≤ (InputManager.onMouseWheel inp dy).mouse.mouseWheelDelta ∧
      (InputManager.onMouseWheel inp dy).mouse.mouseWheelDelta ≤ MAX_ZOOM_LEVEL := by
  unfold InputManager.onMouseWheel
  rcases lt_or_gt_of_ne hdy with hneg | hpos
  · rw [if_pos hl, if_pos hneg]
    constructor
    · show MIN_ZOOM_LEVEL ≤ max (inp.mouse.mouseWheelDelta - SCROLL_LEVEL_STEP) MIN_ZOOM_LEVEL
      exact le_max_right _ _
    · show max (inp.mouse.mouseWheelDelta - SCROLL_LEVEL_STEP) MIN_ZOOM_LEVEL ≤ MAX_ZOOM_LEVEL
      apply max_le
      · have h2 : (0 : ℝ) ≤ SCROLL_LEVEL_STEP := by norm_num [SCROLL_LEVEL_STEP]
        linarith
      · norm_num [MIN_ZOOM_LEVEL, MAX_ZOOM_LEVEL]
  · have hneg : ¬ (dy < 0) := by linarith
    rw [if_pos hl, if_neg hneg, if_pos hpos]
    constructor
    · show MIN_ZOOM_LEVEL ≤ min (inp.mouse.mouseWheelDelta + SCROLL_LEVEL_STEP) MAX_ZOOM_LEVEL
      apply le_min
      · have h2 : MIN_ZOOM_LEVEL ≤ SCROLL_LEVEL_STEP := by
          norm_num [MIN_ZOOM_LEVEL, SCROLL_LEVEL_STEP]
        linarith
      · norm_num [MIN_ZOOM_LEVEL, MAX_ZOOM_LEVEL]
    · show min (inp.mouse.mouseWheelDelta + SCROLL_LEVEL_STEP) MAX_ZOOM_LEVEL ≤ MAX_ZOOM_LEVEL
      exact min_le_right _ _

theorem onMouseWheel_preserves_range (inp : InputState) (d : ℝ)
    (h0 : MIN_ZOOM_LEVEL ≤ inp.mouse.mouseWheelDelta)
    (h1 : inp.mouse.mouseWheelDelta ≤ MAX_ZOOM_LEVEL) :
    MIN_ZOOM_LEVEL ≤ (InputManager.onMouseWheel inp d).mouse.mouseWheelDelta ∧
      (InputManager.onMouseWheel inp d).mouse.mouseWheelDelta ≤ MAX_ZOOM_LEVEL := by
  unfold InputManager.onMouseWheel
  split_ifs with hl hneg hpos
  · constructor
    · show MIN_ZOOM_LEVEL ≤ max (inp.mouse.mouseWheelDelta - SCROLL_LEVEL_STEP) MIN_ZOOM_LEVEL
      exact le_max_right _ _
    · show max (inp.mouse.mouseWheelDelta - SCROLL_LEVEL_STEP) MIN_ZOOM_LEVEL ≤ MAX_ZOOM_LEVEL
      apply max_le
      · have h2 : (0 : ℝ) ≤ SCROLL_LEVEL_STEP := by norm_num [SCROLL_LEVEL_STEP]
        linarith
      · norm_num [MIN_ZOOM_LEVEL, MAX_ZOOM_LEVEL]
  · constructor
    · show MIN_ZOOM_LEVEL ≤ min (inp.mouse.mouseWheelDelta + SCROLL_LEVEL_STEP) MAX_ZOOM_LEVEL
      apply le_min
      · have h2 : (0 : ℝ) ≤ SCROLL_LEVEL_STEP := by norm_num [SCROLL_LEVEL_STEP]
        linarith
      · norm_num [MIN_ZOOM_LEVEL, MAX_ZOOM_LEVEL]
    · show min (inp.mouse.mouseWheelDelta + SCROLL_LEVEL_STEP) MAX_ZOOM_LEVEL ≤ MAX_ZOOM_LEVEL
      exact min_le_right _ _
  · exact ⟨h0, h1⟩
  · exact ⟨h0, h1⟩

theorem foldl_wheelDelta_bounds (evs : List InputEvent) :
    ∀ inp : InputState, 0 ≤ inp.mouse.mouseWheelDelta →
      inp.mouse.mouseWheelDelta ≤ MAX_ZOOM_LEVEL →
      0 ≤ (evs.foldl InputManager.applyEvent inp).mouse.mouseWheelDelta ∧
        (evs.foldl InputManager.applyEvent inp).mouse.mouseWheelDelta ≤ MAX_ZOOM_LEVEL := by
  induction evs with
  | nil => intro inp h0 h1; exact ⟨h0, h1⟩
  | cons ev rest ih =>
    intro inp h0 h1
    have h : 0 ≤ (InputManager.applyEvent inp ev).mouse.mouseWheelDelta ∧
        (InputManager.applyEvent inp ev).mouse.mouseWheelDelta ≤ MAX_ZOOM_LEVEL := by
      cases ev with
      | wheel d => exact onMouseWheel_wheelDelta_bounds inp d h0 h1
      | lockChange b => exact ⟨h0, h1⟩
    simpa using ih (InputManager.applyEvent inp ev) h.1 h.2

/-- C7 (amended): the accumulated scroll value always lies within
`[0, MAX_ZOOM_LEVEL]` (it starts at 0, below `MIN_ZOOM_LEVEL`); any wheel
event processed while pointer-locked with nonzero `deltaY` puts it inside
`[MIN_ZOOM_LEVEL, MAX_ZOOM_LEVEL]`, and every subsequent event preserves
membership in that interval. -/
theorem mouseWheelDelta_range_invariant :
    (∀ evs : List InputEvent,
      0 ≤ (InputManager.runEvents evs).mouse.mouseWheelDelta ∧
        (InputManager.runEvents evs).mouse.mouseWheelDelta ≤ MAX_ZOOM_LEVEL) ∧
    (∀ (inp : InputState) (dy : ℝ), inp.pointerLocked = true → dy ≠ 0 →
      0 ≤ inp.mouse.mouseWheelDelta → inp.mouse.mouseWheelDelta ≤ MAX_ZOOM_LEVEL →
      MIN_ZOOM_LEVEL ≤ (InputManager.onMouseWheel inp dy).mouse.mouseWheelDelta ∧
        (InputManager.onMouseWheel inp dy).mouse.mouseWheelDelta ≤ MAX_ZOOM_LEVEL) ∧
    (∀ (inp : InputState) (ev : InputEvent),
      MIN_ZOOM_LEVEL ≤ inp.mouse.mouseWheelDelta →
      inp.mouse.mouseWheelDelta ≤ MAX_ZOOM_LEVEL →
      MIN_ZOOM_LEVEL ≤ (InputManager.applyEvent inp ev).mouse.mouseWheelDelta ∧
        (InputManager.applyEvent inp ev).mouse.mouseWheelDelta ≤ MAX_ZOOM_LEVEL) := by
  refine ⟨?_, ?_, ?_⟩
  · intro evs
    exact foldl_wheelDelta_bounds evs InputManager.init
      (by norm_num [InputManager.init]) (by norm_num [InputManager.init, MAX_ZOOM_LEVEL])
  · intro inp dy hl hdy h0 h1
    exact onMouseWheel_effective_bounds inp dy hl hdy h0 h1
  · intro inp ev h0 h1
    cases ev with
    | wheel d => exact onMouseWheel_preserves_range inp d h0 h1
    | lockChange b => exact ⟨h0, h1⟩

theorem mouseWheelDelta_range_invariant_witness :
    (0 ≤ (InputManager.runEvents [InputEvent.lockChange true,
        InputEvent.wheel 1]).mouse.mouseWheelDelta ∧
      (InputManager.runEvents [InputEvent.lockChange true,
        InputEvent.wheel 1]).mouse.mouseWheelDelta ≤ MAX_ZOOM_LEVEL) ∧
    (MIN_ZOOM_LEVEL ≤ (InputManager.onMouseWheel
        { InputManager.init with pointerLocked := true } 1).mouse.mouseWheelDelta ∧
      (InputManager.onMouseWheel
        { InputManager.init with pointerLocked := true } 1).mouse.mouseWheelDelta ≤
        MAX_ZOOM_LEVEL) ∧
    (MIN_ZOOM_LEVEL ≤ (InputManager.applyEvent
        { InputManager.init with mouse.mouseWheelDelta := 1.5 }
        (InputEvent.wheel (-1))).mouse.mouseWheelDelta ∧
      (InputManager.applyEvent
        { InputManager.init with mouse.mouseWheelDelta := 1.5 }
        (InputEvent.wheel (-1))).mouse.mouseWheelDelta ≤ MAX_ZOOM_LEVEL) :=
  ⟨mouseWheelDelta_range_invariant.1 _,
    mouseWheelDelta_range_invariant.2.1 _ 1 rfl (by norm_num)
      (by norm_num [InputManager.init]) (by norm_num [InputManager.init, MAX_ZOOM_LEVEL]),
    mouseWheelDelta_range_invariant.2.2 _ (InputEvent.wheel (-1))
      (by norm_num [InputManager.init, MIN_ZOOM_LEVEL])
      (by norm_num [InputManager.init, MAX_ZOOM_LEVEL])⟩

/-- C7 counterexample: the freshly constructed `InputManager` (the empty event
sequence) has `mouseWheelDelta = 0`, which is below `MIN_ZOOM_LEVEL = 0.001`,
so the accumulator does not always lie in `[MIN_ZOOM_LEVEL, MAX_ZOOM_LEVEL]`. -/
theorem mouseWheelDelta_initial_below_min :
    ¬ (MIN_ZOOM_LEVEL ≤ (InputManager.runEvents []).mouse.mouseWheelDelta ∧
        (InputManager.runEvents []).mouse.mouseWheelDelta ≤ MAX_ZOOM_LEVEL) := by
  intro h
  have h1 := h.1
  norm_num [InputManager.runEvents, InputManager.init, MIN_ZOOM_LEVEL] at h1

/-! ## Vectors and the external world

`Vec3` models `THREE.Vector3`.  `World.castRay` abstracts
`physics.castRay(ray, maxToi, solid, ...)` for a ray with the given origin and
direction, returning the time of impact of the closest hit, if any (the query
filters — excluded collider/body, filter flags — are part of the oracle).
`windowWidth`/`windowHeight` abstract `useRenderSize()`. -/

structure Vec3 where
  x : ℝ
  y : ℝ
  z : ℝ

namespace Vec3

def add (v w : Vec3) : Vec3 := ⟨v.x + w.x, v.y + w.y, v.z + w.z⟩

def sub (v w : Vec3) : Vec3 := ⟨v.x - w.x, v.y - w.y, v.z - w.z⟩

def smul (c : ℝ) (v : Vec3) : Vec3 := ⟨c * v.x, c * v.y, c * v.z⟩

def length (v : Vec3) : ℝ := Real.sqrt (v.x ^ 2 + v.y ^ 2 + v.z ^ 2)

/-- `THREE.Vector3.normalize` (divide by length). -/
def normalize (v : Vec3) : Vec3 := smul (1 / v.length) v

end Vec3

/-- The directional constants of `character-controller.ts`. -/
def FORWARD : Vec3 := ⟨0, 0, -1⟩
def LEFT : Vec3 := ⟨-1, 0, 0⟩
def UP : Vec3 := ⟨0, 1, 0⟩
def RIGHT : Vec3 := ⟨1, 0, 0⟩
def DOWN : Vec3 := ⟨0, -1, 0⟩

/-- The effect of `applyQuaternion(q)` for `q = setFromAxisAngle(UP, α)`: the
right-handed rotation about the Y axis by α. -/
def rotateY (α : ℝ) (v : Vec3) : Vec3 :=
  ⟨v.x * Real.cos α + v.z * Real.sin α, v.y,
    -(v.x * Real.sin α) + v.z * Real.cos α⟩

structure World where
  castRay : Vec3 → Vec3 → ℝ → Bool → Option ℝ
  windowWidth : ℝ
  windowHeight : ℝ

/-! ## HeadBobController (`character-controller.ts`, lines 350-401) -/

structure HeadBobState where
  headBobTimer : ℝ
  headBobAmount : ℝ
  lastHeadBobDiff : ℝ
  headBobActive : Bool

/-- JavaScript truncated division remainder `a % b`, used in `getHeadBob`. -/
def jsTrunc (x : ℝ) : ℤ := if 0 ≤ x then ⌊x⌋ else ⌈x⌉

def jsMod (a b : ℝ) : ℝ := a - b * (jsTrunc (a / b) : ℝ)

namespace HeadBobController

/-- The constructor of `HeadBobController`. -/
def init : HeadBobState :=
  { headBobTimer := 0, headBobAmount := 0, lastHeadBobDiff := 0, headBobActive := false }

/-- `HeadBobController.getHeadBob(timeDiff, isMoving)`.  The source mutates the
state and returns `this.headBobAmount`; here the updated state is returned and
the caller reads its `headBobAmount` field (unchanged when inactive).
Constants inlined from the source: duration 0.1, frequency 0.8, amplitude 0.3,
`STEP = Math.PI`. -/
def getHeadBob (hb : HeadBobState) (timeDiff : ℝ) (isMoving : Bool) : HeadBobState :=
  let active := if hb.headBobActive then true else isMoving
  if active then
    let currentAmount := hb.headBobTimer * 0.8 * (1 / 0.1)
    let headBobDiff := jsMod currentAmount Real.pi
    let active2 : Bool := if headBobDiff < hb.lastHeadBobDiff then false else active
    { headBobTimer := hb.headBobTimer + timeDiff
      headBobAmount := Real.sin currentAmount * 0.3
      lastHeadBobDiff := headBobDiff
      headBobActive := active2 }
  else hb

end HeadBobController

/-! ## CharacterController (`character-controller.ts`, lines 577-838)

The controller state gathers the mutable fields read or written by
`CharacterController.update` and its helpers.  The body's orientation
quaternion is a pure function of `phi`/`theta` (recomputed each
`updateRotation`), so it is not tracked as a separate field; the camera's
orientation after `lookAt(target)` is represented by its unit forward vector
`normalize(target - position)` together with the look target. -/

structure CameraState where
  position : Vec3
  lookTarget : Vec3
  forward : Vec3

structure CCState where
  position : Vec3
  phi : ℝ
  theta : ℝ
  input : InputState
  headBob : HeadBobState
  zoomC : ZoomState
  heightC : HeightState
  camera : CameraState
  colliderTranslation : Vec3
  avatarWidth : ℝ
  avatarHeight : ℝ
  isMoving2D : Bool

namespace CharacterController

/-- The constructor: position copied from the avatar, fresh sub-controllers,
zero angles.  The camera fields start as the externally supplied camera (here
zeroed; the first `updateCamera` overwrites them), and `addPhysics` places the
collider at the mesh position. -/
def init (pos : Vec3) (avatarWidth avatarHeight : ℝ) : CCState :=
  { position := pos, phi := 0, theta := 0,
    input := InputManager.init, headBob := HeadBobController.init,
    zoomC := ZoomController.init, heightC := HeightController.init,
    camera := { position := ⟨0, 0, 0⟩, lookTarget := ⟨0, 0, 0⟩, forward := ⟨0, 0, -1⟩ },
    colliderTranslation := pos, avatarWidth := avatarWidth, avatarHeight := avatarHeight,
    isMoving2D := false }

/-- `CharacterController.updateRotation`: normalize the mouse deltas by the
viewport, accumulate yaw (`phi`, unbounded), clamp pitch (`theta`) to ±π/2.
`PHI_SPEED = THETA_SPEED = 2.5`. -/
def updateRotation (W : World) (s : CCState) : CCState :=
  let xh := s.input.mouse.mouseXDelta / W.windowWidth
  let yh := s.input.mouse.mouseYDelta / W.windowHeight
  { s with phi := s.phi + -xh * 2.5,
           theta := clamp (s.theta + -yh * 2.5) (-(Real.pi / 2)) (Real.pi / 2) }

/-- `CharacterController.updateTranslation`: WASD movement rotated by
`phi + HALF_PI` about Y, sprint ×5 with either shift, jump factor committed
only while grounded, then `position.y += movePerFrame`. -/
def updateTranslation (s : CCState) (timeDiff : ℝ) : CCState :=
  let timeDiff_d10 := timeDiff * 10
  let shiftSpeedUp : ℝ :=
    if InputManager.isKeyDown s.input Key.shiftL ||
        InputManager.isKeyDown s.input Key.shiftR then 5 else 1
  let forwardVelocity : ℝ :=
    (if InputManager.isKeyDown s.input Key.w then shiftSpeedUp else 0) -
      (if InputManager.isKeyDown s.input Key.s then shiftSpeedUp else 0)
  let sideVelocity : ℝ :=
    (if InputManager.isKeyDown s.input Key.a then shiftSpeedUp else 0) -
      (if InputManager.isKeyDown s.input Key.d then shiftSpeedUp else 0)
  let qxAngle := s.phi + Real.pi / 2
  let vec0 := Vec3.smul (forwardVelocity * timeDiff_d10) (rotateY qxAngle FORWARD)
  let vec1 := Vec3.smul (sideVelocity * timeDiff_d10) (rotateY qxAngle LEFT)
  let pos1 := Vec3.add (Vec3.add s.position vec0) vec1
  let elevationFactor : ℝ := if InputManager.isKeyDown s.input Key.space then 1 else 0
  let heightC1 :=
    if s.heightC.grounded then HeightController.setJumpFactor s.heightC elevationFactor
    else s.heightC
  { s with position := { pos1 with y := pos1.y + heightC1.movePerFrame },
           heightC := heightC1,
           isMoving2D := decide (forwardVelocity ≠ 0 ∨ sideVelocity ≠ 0) }

/-- `CharacterController.updateGravity`. -/
def updateGravity (s : CCState) (timestamp timeDiff : ℝ) : CCState :=
  { s with heightC := HeightController.update s.heightC timestamp timeDiff }

/-- The foot-level ray origin used by `detectGround`. -/
def footOrigin (s : CCState) : Vec3 :=
  { s.position with y := s.position.y - s.avatarHeight / 2 }

/-- `CharacterController.detectGround`: refresh the collider translation, cast
a downward ray from the foot (max 1000, solid, excluding dynamic bodies and
self); on a hit, grounded iff the signed distance `rayOrigin.y - hitPoint.y`
is non-positive, otherwise record the hit's Y plus the avatar half-height as
`lastGroundHeight`; on a miss, cast an upward ray (max `avatar.height / 2`);
if it hits, snap `position.y` to `lastGroundHeight` and ground, else
un-ground. -/
def detectGround (W : World) (s : CCState) : CCState :=
  let avatarHalfHeight := s.avatarHeight / 2
  let s0 := { s with colliderTranslation := s.position }
  let rayOrigin := footOrigin s
  match W.castRay rayOrigin DOWN 1000 true with
  | some toi =>
      let hitPoint := Vec3.add rayOrigin (Vec3.smul toi DOWN)
      let distance := rayOrigin.y - hitPoint.y
      if distance ≤ 0 then
        { s0 with heightC := HeightController.setGrounded s0.heightC true }
      else
        { s0 with heightC := (HeightController.setGrounded
            { s0.heightC with lastGroundHeight := hitPoint.y + avatarHalfHeight } false) }
  | none =>
      match W.castRay rayOrigin UP (s.avatarHeight / 2) true with
      | some _ =>
          { s0 with position := { s0.position with y := s0.heightC.lastGroundHeight },
                    heightC := HeightController.setGrounded s0.heightC true }
      | none => { s0 with heightC := HeightController.setGrounded s0.heightC false }

/-- `CharacterController.updateZoom`: feed the accumulated wheel value to the
zoom controller. -/
def updateZoom (s : CCState) (timestamp timeDiff : ℝ) : CCState :=
  { s with zoomC := (ZoomController.update s.zoomC s.input.mouse.mouseWheelDelta
      timestamp timeDiff) }

/-- `CharacterController.updateCamera`: place the camera on the zoom sphere
around the body, look at the body; in first person (zoom ≤ avatar width) add
the head bob to the camera Y and re-aim at the first surface hit by the
camera-forward ray `(0,0,-1)·cameraQuaternion`, i.e. the unit vector toward
the body computed by the preceding `lookAt`. -/
def updateCamera (W : World) (s : CCState) (timestamp timeDiff : ℝ) : CCState :=
  let circleRadius := s.zoomC.zoom
  let cameraOffset : Vec3 :=
    ⟨circleRadius * Real.cos (-s.phi), circleRadius * Real.cos (s.theta + Real.pi / 2),
      circleRadius * Real.sin (-s.phi)⟩
  let camPos := Vec3.add s.position cameraOffset
  let forward := Vec3.normalize (Vec3.sub s.position camPos)
  let cam1 : CameraState := { position := camPos, lookTarget := s.position, forward := forward }
  if s.zoomC.zoom ≤ s.avatarWidth then
    let hb := HeadBobController.getHeadBob s.headBob timeDiff s.isMoving2D
    let camPos2 := { camPos with y := camPos.y + hb.headBobAmount }
    match W.castRay camPos2 forward 1000 false with
    | some toi =>
        let hitPoint := Vec3.add camPos2 (Vec3.smul toi forward)
        { s with headBob := hb,
                 camera := { position := camPos2, lookTarget := hitPoint,
                             forward := Vec3.normalize (Vec3.sub hitPoint camPos2) } }
    | none => { s with headBob := hb, camera := { cam1 with position := camPos2 } }
  else { s with camera := cam1 }

/-- Step 7, `this.inputManager.update()`: reset the per-frame mouse deltas. -/
def updateInput (s : CCState) : CCState :=
  { s with input := InputManager.update s.input }

/-- `CharacterController.update(timestamp, timeDiff)`: the per-frame sequence
exactly as written in the source. -/
def update (W : World) (s : CCState) (timestamp timeDiff : ℝ) : CCState :=
  let s1 := updateRotation W s
  let s2 := updateTranslation s1 timeDiff
  let s3 := updateGravity s2 timestamp timeDiff
  let s4 := detectGround W s3
  let s5 := updateZoom s4 timestamp timeDiff
  let s6 := updateCamera W s5 timestamp timeDiff
  updateInput s6

end CharacterController

/-- A world whose raycasts never hit, with a 1×1 viewport. -/
def worldTrivial : World :=
  { castRay := fun _ _ _ _ => none, windowWidth := 1, windowHeight := 1 }

/-- C8: for arbitrary mouse deltas and any viewport with nonzero dimensions,
after `updateRotation` the pitch `theta` lies in [-π/2, π/2], while the yaw
`phi` accumulates unbounded: any target value is exceeded after a single
suitable mouse-X delta. -/
theorem updateRotation_pitch_clamped_yaw_unbounded (W : World) (s : CCState)
    (hw : W.windowWidth ≠ 0) (hh : W.windowHeight ≠ 0) :
    (-(Real.pi / 2) ≤ (CharacterController.updateRotation W s).theta ∧
      (CharacterController.updateRotation W s).theta ≤ Real.pi / 2) ∧
    (∀ M : ℝ, ∃ dx : ℝ,
      (CharacterController.updateRotation W
        { s with input.mouse.mouseXDelta := dx }).phi > M) := by
  constructor
  · constructor
    · show -(Real.pi / 2) ≤ clamp (s.theta + -(s.input.mouse.mouseYDelta /
        W.windowHeight) * 2.5) (-(Real.pi / 2)) (Real.pi / 2)
      exact clamp_ge_left _ _ _ (by nlinarith [Real.pi_pos])
    · exact clamp_le_right _ _ _
  · intro M
    refine ⟨-(W.windowWidth * ((M - s.phi + 1) / 2.5)), ?_⟩
    show s.phi + -(-(W.windowWidth * ((M - s.phi + 1) / 2.5)) / W.windowWidth) * 2.5 > M
    have h1 : -(W.windowWidth * ((M - s.phi + 1) / 2.5)) / W.windowWidth
        = -((M - s.phi + 1) / 2.5) := by
      rw [neg_div, mul_div_cancel_left₀ _ hw]
    rw [h1, neg_neg]
    have h2 : (M - s.phi + 1) / 2.5 * 2.5 = M - s.phi + 1 :=
      div_mul_cancel₀ _ (by norm_num)
    rw [h2]
    linarith

/-- Witness for C8 at a concrete world and state (and target yaw 100). -/
theorem updateRotation_pitch_clamped_yaw_unbounded_witness :
    (-(Real.pi / 2) ≤ (CharacterController.updateRotation worldTrivial
        (CharacterController.init ⟨0, 10, 0⟩ 1 2)).theta ∧
      (CharacterController.updateRotation worldTrivial
        (CharacterController.init ⟨0, 10, 0⟩ 1 2)).theta ≤ Real.pi / 2) ∧
    (∃ dx : ℝ, (CharacterController.updateRotation worldTrivial
        { CharacterController.init ⟨0, 10, 0⟩ 1 2 with
          input.mouse.mouseXDelta := dx }).phi > 100) := by
  have h := updateRotation_pitch_clamped_yaw_unbounded worldTrivial
    (CharacterController.init ⟨0, 10, 0⟩ 1 2)
    (by norm_num [worldTrivial]) (by norm_num [worldTrivial])
  exact ⟨h.1, h.2 100⟩

/-- C3: the four branch outcomes of `detectGround`.  With a downward hit of
non-positive signed distance the character is grounded; with positive distance
it is un-grounded and the hit's Y plus the avatar half-height is recorded as
`lastGroundHeight`; with no downward hit but an upward hit, `position.y` snaps
to `lastGroundHeight` and the character is grounded; with neither hit it is
un-grounded. -/
theorem detectGround_branch_spec (W : World) (s : CCState) :
    (∀ toi : ℝ, W.castRay (CharacterController.footOrigin s) DOWN 1000 true = some toi →
      (((CharacterController.footOrigin s).y -
          (Vec3.add (CharacterController.footOrigin s) (Vec3.smul toi DOWN)).y ≤ 0 →
        (CharacterController.detectGround W s).heightC.grounded = true) ∧
       (0 < (CharacterController.footOrigin s).y -
          (Vec3.add (CharacterController.footOrigin s) (Vec3.smul toi DOWN)).y →
        (CharacterController.detectGround W s).heightC.grounded = false ∧
        (CharacterController.detectGround W s).heightC.lastGroundHeight =
          (Vec3.add (CharacterController.footOrigin s) (Vec3.smul toi DOWN)).y +
            s.avatarHeight / 2))) ∧
    (W.castRay (CharacterController.footOrigin s) DOWN 1000 true = none →
      ((∀ toi2 : ℝ,
          W.castRay (CharacterController.footOrigin s) UP (s.avatarHeight / 2) true =
            some toi2 →
        (CharacterController.detectGround W s).position.y = s.heightC.lastGroundHeight ∧
          (CharacterController.detectGround W s).heightC.grounded = true) ∧
       (W.castRay (CharacterController.footOrigin s) UP (s.avatarHeight / 2) true = none →
        (CharacterController.detectGround W s).heightC.grounded = false))) := by
  constructor
  · intro toi hdown
    constructor
    · intro hdist
      simp [CharacterController.detectGround, hdown, hdist, HeightController.setGrounded]
    · intro hdist
      have hdist' : ¬ ((CharacterController.footOrigin s).y -
          (Vec3.add (CharacterController.footOrigin s) (Vec3.smul toi DOWN)).y ≤ 0) :=
        not_le.mpr hdist
      constructor
      · simp [CharacterController.detectGround, hdown, hdist', HeightController.setGrounded]
      · simp [CharacterController.detectGround, hdown, hdist', HeightController.setGrounded]
  · intro hdown
    constructor
    · intro toi2 hup
      constructor
      · simp [CharacterController.detectGround, hdown, hup, HeightController.setGrounded]
      · simp [CharacterController.detectGround, hdown, hup, HeightController.setGrounded]
    · intro hup
      simp [CharacterController.detectGround, hdown, hup, HeightController.setGrounded]

/-- A world whose downward rays hit at time of impact 0 (surface at the foot). -/
def worldDownZero : World :=
  { castRay := fun _ d _ _ => if d.y < 0 then some 0 else none,
    windowWidth := 1, windowHeight := 1 }

/-- A world whose downward rays hit at time of impact 1 (surface 1 below the foot). -/
def worldDownOne : World :=
  { castRay := fun _ d _ _ => if d.y < 0 then some 1 else none,
    windowWidth := 1, windowHeight := 1 }

/-- A world where only upward rays hit (body below a thin ground plane). -/
def worldUpHit : World :=
  { castRay := fun _ d _ _ => if 0 < d.y then some 0.3 else none,
    windowWidth := 1, windowHeight := 1 }

/-- Witness for C3: each of the four branches exercised at a concrete world and
the initial state at position (0, 10, 0) with avatar size 1×2. -/
theorem detectGround_branch_spec_witness :
    (CharacterController.detectGround worldDownZero
        (CharacterController.init ⟨0, 10, 0⟩ 1 2)).heightC.grounded = true ∧
    ((CharacterController.detectGround worldDownOne
        (CharacterController.init ⟨0, 10, 0⟩ 1 2)).heightC.grounded = false ∧
      (CharacterController.detectGround worldDownOne
        (CharacterController.init ⟨0, 10, 0⟩ 1 2)).heightC.lastGroundHeight = 9) ∧
    ((CharacterController.detectGround worldUpHit
        (CharacterController.init ⟨0, 10, 0⟩ 1 2)).position.y =
        (CharacterController.init ⟨0, 10, 0⟩ 1 2).heightC.lastGroundHeight ∧
      (CharacterController.detectGround worldUpHit
        (CharacterController.init ⟨0, 10, 0⟩ 1 2)).heightC.grounded = true) ∧
    (CharacterController.detectGround worldTrivial
        (CharacterController.init ⟨0, 10, 0⟩ 1 2)).heightC.grounded = false := by
  refine ⟨?_, ⟨?_, ?_⟩, ⟨?_, ?_⟩, ?_⟩
  · exact ((detectGround_branch_spec worldDownZero
        (CharacterController.init ⟨0, 10, 0⟩ 1 2)).1 0
      (by norm_num [worldDownZero, DOWN])).1
      (by norm_num [CharacterController.footOrigin, CharacterController.init,
        Vec3.add, Vec3.smul, DOWN])
  · exact (((detectGround_branch_spec worldDownOne
        (CharacterController.init ⟨0, 10, 0⟩ 1 2)).1 1
      (by norm_num [worldDownOne, DOWN])).2
      (by norm_num [CharacterController.footOrigin, CharacterController.init,
        Vec3.add, Vec3.smul, DOWN])).1
  · have h := (((detectGround_branch_spec worldDownOne
        (CharacterController.init ⟨0, 10, 0⟩ 1 2)).1 1
      (by norm_num [worldDownOne, DOWN])).2
      (by norm_num [CharacterController.footOrigin, CharacterController.init,
        Vec3.add, Vec3.smul, DOWN])).2
    rw [h]
    norm_num [CharacterController.footOrigin, CharacterController.init,
      Vec3.add, Vec3.smul, DOWN]
  · exact (((detectGround_branch_spec worldUpHit
        (CharacterController.init ⟨0, 10, 0⟩ 1 2)).2
      (by norm_num [worldUpHit, DOWN])).1 0.3
      (by norm_num [worldUpHit, UP])).1
  · exact (((detectGround_branch_spec worldUpHit
        (CharacterController.init ⟨0, 10, 0⟩ 1 2)).2
      (by norm_num [worldUpHit, DOWN])).1 0.3
      (by norm_num [worldUpHit, UP])).2
  · exact ((detectGround_branch_spec worldTrivial
        (CharacterController.init ⟨0, 10, 0⟩ 1 2)).2
      (by norm_num [worldTrivial])).2 (by norm_num [worldTrivial])

/-- C10: `detectGround` leaves `position.x`/`position.z`, the angles, the zoom
state, the camera, the input, the head bob and all height fields other than
`grounded`/`lastGroundHeight` untouched; `position.y` is written only in the
down-miss/up-hit branch, where it becomes `lastGroundHeight`; its only other
effect is refreshing the collider translation to the body position. -/
theorem detectGround_frame_effects (W : World) (s : CCState) :
    (CharacterController.detectGround W s).position.x = s.position.x ∧
    (CharacterController.detectGround W s).position.z = s.position.z ∧
    (CharacterController.detectGround W s).position.y =
      (match W.castRay (CharacterController.footOrigin s) DOWN 1000 true,
             W.castRay (CharacterController.footOrigin s) UP (s.avatarHeight / 2) true with
        | none, some _ => s.heightC.lastGroundHeight
        | _, _ => s.position.y) ∧
    (CharacterController.detectGround W s).phi = s.phi ∧
    (CharacterController.detectGround W s).theta = s.theta ∧
    (CharacterController.detectGround W s).zoomC = s.zoomC ∧
    (CharacterController.detectGround W s).camera = s.camera ∧
    (CharacterController.detectGround W s).input = s.input ∧
    (CharacterController.detectGround W s).headBob = s.headBob ∧
    (CharacterController.detectGround W s).isMoving2D = s.isMoving2D ∧
    (CharacterController.detectGround W s).colliderTranslation = s.position ∧
    (CharacterController.detectGround W s).avatarWidth = s.avatarWidth ∧
    (CharacterController.detectGround W s).avatarHeight = s.avatarHeight ∧
    (CharacterController.detectGround W s).heightC.height = s.heightC.height ∧
    (CharacterController.detectGround W s).heightC.lastHeight = s.heightC.lastHeight ∧
    (CharacterController.detectGround W s).heightC.movePerFrame = s.heightC.movePerFrame ∧
    (CharacterController.detectGround W s).heightC.startFallAnimation =
      s.heightC.startFallAnimation ∧
    (CharacterController.detectGround W s).heightC.startJumpAnimation =
      s.heightC.startJumpAnimation ∧
    (CharacterController.detectGround W s).heightC.jumpFactor = s.heightC.jumpFactor ∧
    (CharacterController.detectGround W s).heightC.isAnimating = s.heightC.isAnimating := by
  rcases hdown : W.castRay (CharacterController.footOrigin s) DOWN 1000 true with _ | toi
  · rcases hup : W.castRay (CharacterController.footOrigin s) UP (s.avatarHeight / 2) true
      with _ | toi2
    · simp [CharacterController.detectGround, hdown, hup, HeightController.setGrounded]
    · simp [CharacterController.detectGround, hdown, hup, HeightController.setGrounded]
  · by_cases hdist : (CharacterController.footOrigin s).y -
        (Vec3.add (CharacterController.footOrigin s) (Vec3.smul toi DOWN)).y ≤ 0
    · simp [CharacterController.detectGround, hdown, hdist, HeightController.setGrounded]
    · simp [CharacterController.detectGround, hdown, hdist, HeightController.setGrounded]

/-! ## The per-frame pipeline (claim C2) -/

theorem updateRotation_position (W : World) (s : CCState) :
    (CharacterController.updateRotation W s).position = s.position := rfl

theorem updateRotation_heightC (W : World) (s : CCState) :
    (CharacterController.updateRotation W s).heightC = s.heightC := rfl

theorem updateGravity_position (s : CCState) (t dt : ℝ) :
    (CharacterController.updateGravity s t dt).position = s.position := rfl

theorem updateZoom_position (s : CCState) (t dt : ℝ) :
    (CharacterController.updateZoom s t dt).position = s.position := rfl

theorem updateInput_position (s : CCState) :
    (CharacterController.updateInput s).position = s.position := rfl

theorem updateCamera_position (W : World) (s : CCState) (t dt : ℝ) :
    (CharacterController.updateCamera W s t dt).position = s.position := by
  unfold CharacterController.updateCamera
  split_ifs with h
  · dsimp only
    split <;> rfl
  · rfl

theorem detectGround_worldTrivial_position (s : CCState) :
    (CharacterController.detectGround worldTrivial s).position = s.position := by
  simp [CharacterController.detectGround, worldTrivial, HeightController.setGrounded]

/-- The horizontal translation step never moves the body vertically except by
adding the currently stored `movePerFrame` (computed by the previous frame's
vertical-motion update): the movement directions have zero Y component. -/
theorem updateTranslation_position_y (s : CCState) (timeDiff : ℝ) :
    (CharacterController.updateTranslation s timeDiff).position.y =
      s.position.y + s.heightC.movePerFrame := by
  unfold CharacterController.updateTranslation
  by_cases hg : s.heightC.grounded
  · simp [hg, HeightController.setJumpFactor, Vec3.add, Vec3.smul, rotateY, FORWARD, LEFT]
  · simp [hg, Vec3.add, Vec3.smul, rotateY, FORWARD, LEFT]

/-- The vertical-motion update never changes the grounded flag: the flag it
consumes is the one set by the previous frame's ground detection. -/
theorem heightUpdate_grounded_eq (s : HeightState) (t dt : ℝ) :
    (HeightController.update s t dt).grounded = s.grounded := by
  unfold HeightController.update
  by_cases hg : s.grounded
  · by_cases hj : t - s.startJumpAnimation > JUMP_DURATION
    · simp [hg, hj]
    · simp [hg, hj]
  · simp [hg]

/-- Step 2 exactly as claim C2 words it: horizontal translation from input
(with the grounded jump-factor commit), WITHOUT the vertical delta
application. -/
def claimedTranslationStep (s : CCState) (timeDiff : ℝ) : CCState :=
  let timeDiff_d10 := timeDiff * 10
  let shiftSpeedUp : ℝ :=
    if InputManager.isKeyDown s.input Key.shiftL ||
        InputManager.isKeyDown s.input Key.shiftR then 5 else 1
  let forwardVelocity : ℝ :=
    (if InputManager.isKeyDown s.input Key.w then shiftSpeedUp else 0) -
      (if InputManager.isKeyDown s.input Key.s then shiftSpeedUp else 0)
  let sideVelocity : ℝ :=
    (if InputManager.isKeyDown s.input Key.a then shiftSpeedUp else 0) -
      (if InputManager.isKeyDown s.input Key.d then shiftSpeedUp else 0)
  let qxAngle := s.phi + Real.pi / 2
  let vec0 := Vec3.smul (forwardVelocity * timeDiff_d10) (rotateY qxAngle FORWARD)
  let vec1 := Vec3.smul (sideVelocity * timeDiff_d10) (rotateY qxAngle LEFT)
  let pos1 := Vec3.add (Vec3.add s.position vec0) vec1
  let elevationFactor : ℝ := if InputManager.isKeyDown s.input Key.space then 1 else 0
  let heightC1 :=
    if s.heightC.grounded then HeightController.setJumpFactor s.heightC elevationFactor
    else s.heightC
  { s with position := pos1, heightC := heightC1,
           isMoving2D := decide (forwardVelocity ≠ 0 ∨ sideVelocity ≠ 0) }

/-- Step 3 exactly as claim C2 words it: the vertical-motion update adds its
delta for THIS frame to `position.y`. -/
def claimedVerticalStep (s : CCState) (timestamp timeDiff : ℝ) : CCState :=
  let h := HeightController.update s.heightC timestamp timeDiff
  { s with heightC := h,
           position := { s.position with y := s.position.y + h.movePerFrame } }

/-- The per-frame sequence exactly as claim C2 states it: rotation, horizontal
translation, vertical motion (adding this frame's delta to Y), ground
detection, zoom, camera, input reset. -/
def claimedUpdatePipeline (W : World) (s : CCState) (timestamp timeDiff : ℝ) : CCState :=
  CharacterController.updateInput
    (CharacterController.updateCamera W
      (CharacterController.updateZoom
        (CharacterController.detectGround W
          (claimedVerticalStep
            (claimedTranslationStep (CharacterController.updateRotation W s) timeDiff)
            timestamp timeDiff))
        timestamp timeDiff)
      timestamp timeDiff)

/-- The per-frame sequence as amended: the translation step applies the
PREVIOUS frame's vertical delta to `position.y`; the vertical-motion step only
computes the new delta. -/
def amendedUpdatePipeline (W : World) (s : CCState) (timestamp timeDiff : ℝ) : CCState :=
  CharacterController.updateInput
    (CharacterController.updateCamera W
      (CharacterController.updateZoom
        (CharacterController.detectGround W
          (CharacterController.updateGravity
            (CharacterController.updateTranslation
              (CharacterController.updateRotation W s) timeDiff)
            timestamp timeDiff))
        timestamp timeDiff)
      timestamp timeDiff)

/-- C2 (amended): every `update` call runs rotation; horizontal translation
(which commits the jump factor while grounded and adds the vertical delta
computed by the PREVIOUS frame's vertical-motion step to `position.y`);
vertical motion (computing the new delta without touching the position);
ground detection (whose grounded flag is consumed by the NEXT frame's
vertical-motion step — one-frame lag in both directions); zoom; camera;
input reset.  The second conjunct exhibits the translation step applying
exactly the pre-call `movePerFrame`; the third, that the vertical-motion step
reads and preserves the grounded flag set one frame earlier. -/
theorem characterUpdate_step_order (W : World) (s : CCState) (timestamp timeDiff : ℝ) :
    CharacterController.update W s timestamp timeDiff =
      amendedUpdatePipeline W s timestamp timeDiff ∧
    (CharacterController.updateTranslation s timeDiff).position.y =
      s.position.y + s.heightC.movePerFrame ∧
    (HeightController.update s.heightC timestamp timeDiff).grounded =
      s.heightC.grounded :=
  ⟨rfl, updateTranslation_position_y s timeDiff,
    heightUpdate_grounded_eq s.heightC timestamp timeDiff⟩

theorem claimedVerticalStep_y (s : CCState) (t dt : ℝ) :
    (claimedVerticalStep s t dt).position.y =
      s.position.y + (HeightController.update s.heightC t dt).movePerFrame := rfl

theorem claimedTranslationStep_y (s : CCState) (dt : ℝ) :
    (claimedTranslationStep s dt).position.y = s.position.y := by
  unfold claimedTranslationStep
  by_cases hg : s.heightC.grounded
  · simp [hg, Vec3.add, Vec3.smul, rotateY, FORWARD, LEFT]
  · simp [hg, Vec3.add, Vec3.smul, rotateY, FORWARD, LEFT]

/-- C2 counterexample: from a freshly constructed, airborne controller at
height 10 with no input and no raycast hits, a single `update(1, 1)` leaves
`position.y = 10` (the vertical delta computed this frame is applied only next
frame), while the pipeline as claimed — step 3 adding this frame's delta —
would give `position.y = 10 - 4.905`.  The claimed sequence is therefore not
the one `update` performs. -/
theorem characterUpdate_claimed_order_refuted :
    (claimedUpdatePipeline worldTrivial
        (CharacterController.init ⟨0, 10, 0⟩ 1 2) 1 1).position.y ≠
      (CharacterController.update worldTrivial
        (CharacterController.init ⟨0, 10, 0⟩ 1 2) 1 1).position.y := by
  have hmv : (HeightController.update HeightController.init 1 1).movePerFrame = -4.905 := by
    simp [HeightController.update, HeightController.init, lerp, GRAVITY_Y]
    norm_num
  have hcode : (CharacterController.update worldTrivial
      (CharacterController.init ⟨0, 10, 0⟩ 1 2) 1 1).position.y = 10 := by
    simp only [CharacterController.update]
    rw [updateInput_position, updateCamera_position, updateZoom_position,
      detectGround_worldTrivial_position, updateGravity_position,
      updateTranslation_position_y, updateRotation_position, updateRotation_heightC]
    norm_num [CharacterController.init, HeightController.init]
  have hH : (claimedTranslationStep (CharacterController.updateRotation worldTrivial
      (CharacterController.init ⟨0, 10, 0⟩ 1 2)) 1).heightC = HeightController.init := rfl
  have hclaimed : (claimedUpdatePipeline worldTrivial
      (CharacterController.init ⟨0, 10, 0⟩ 1 2) 1 1).position.y = 10 + -4.905 := by
    unfold claimedUpdatePipeline
    rw [updateInput_position, updateCamera_position, updateZoom_position,
      detectGround_worldTrivial_position, claimedVerticalStep_y, hH, hmv,
      claimedTranslationStep_y, updateRotation_position]
    norm_num [CharacterController.init]
  rw [hclaimed, hcode]
  norm_num

/-! ## addPhysics (`physics/physics.ts`)

The external `RAPIER.ColliderDesc` constructors may fail (return
null/undefined) — the source guards for this with `if (!colliderDesc)` and
logs `'Collider Mesh Error: collision shape creation failed.'`.  The source
then calls `physics.createCollider(colliderDesc, rigidBody)` without an early
return; when `colliderDesc` is undefined, that call dereferences the undefined
descriptor inside the physics library and raises a TypeError in the JavaScript
runtime, so `addPhysics` aborts right after the diagnostic: no collider is
created, the `physicsObjects.push(...)` line is never reached, and the caller
receives no physics object.  This abort is modelled by returning `none` with
the shared object list unchanged (the diagnostic having been appended to the
log). -/

/-- A successfully built collider description. -/
inductive ColliderDesc where
  | cuboid (width height depth : ℝ)
  | ball (radius : ℝ)
  | capsule (halfHeight radius : ℝ)
  | trimesh

/-- The shape parameters (`colliderSettings`), a plain JS object whose fields
are read per shape. -/
structure ColliderSettings where
  width : ℝ
  height : ℝ
  depth : ℝ
  radius : ℝ
  halfHeight : ℝ

/-- The external `RAPIER.ColliderDesc` constructors, as an oracle: each may
fail. -/
structure RapierDescAPI where
  mkCuboid : ℝ → ℝ → ℝ → Option ColliderDesc
  mkBall : ℝ → Option ColliderDesc
  mkCapsule : ℝ → ℝ → Option ColliderDesc
  mkTrimesh : Option ColliderDesc

structure RigidBodyM where
  bodyType : String
  translation : Vec3

structure ColliderM where
  desc : ColliderDesc
  parent : RigidBodyM

/-- `PhysicsObject` from `physics/physics.ts` (`fn` omitted: no claim reads
the post-physics callback). -/
structure PhysicsObjectM where
  meshPosition : Vec3
  collider : ColliderM
  rigidBody : RigidBodyM
  autoAnimate : Bool

/-- The shared engine state touched by `addPhysics`: the `usePhysicsObjects()`
list and the console log. -/
structure PhysicsState where
  physicsObjects : List PhysicsObjectM
  log : List String

def colliderMeshError : String := "Collider Mesh Error: collision shape creation failed."

/-- The `switch (colliderType)` of `addPhysics`: dispatch to the external
descriptor constructor (default: trimesh from the mesh geometry). -/
def colliderDescOf (api : RapierDescAPI) (colliderType : Option String)
    (settings : ColliderSettings) : Option ColliderDesc :=
  match colliderType with
  | some "cuboid" => api.mkCuboid settings.width settings.height settings.depth
  | some "ball" => api.mkBall settings.radius
  | some "capsule" => api.mkCapsule settings.halfHeight settings.radius
  | _ => api.mkTrimesh

/-- `addPhysics(mesh, rigidBodyType, autoAnimate, postPhysicsFn, colliderType,
colliderSettings)`: create the rigid body at the mesh position, build the
collider description, log a diagnostic if that failed, then create the
collider and register the physics object (see the section comment for the
modelling of the failure abort). -/
def addPhysics (api : RapierDescAPI) (st : PhysicsState) (meshPosition : Vec3)
    (rigidBodyType : String) (autoAnimate : Bool)
    (colliderType : Option String) (colliderSettings : ColliderSettings) :
    PhysicsState × Option PhysicsObjectM :=
  let rigidBody : RigidBodyM := { bodyType := rigidBodyType, translation := meshPosition }
  let colliderDesc := colliderDescOf api colliderType colliderSettings
  let st1 : PhysicsState :=
    if colliderDesc.isNone then { st with log := st.log ++ [colliderMeshError] } else st
  match colliderDesc with
  | none => (st1, none)
  | some desc =>
      let collider : ColliderM := { desc := desc, parent := rigidBody }
      let physicsObject : PhysicsObjectM :=
        { meshPosition := meshPosition, collider := collider, rigidBody := rigidBody,
          autoAnimate := autoAnimate }
      ({ st1 with physicsObjects := st1.physicsObjects ++ [physicsObject] },
        some physicsObject)

/-- C9: when collider-description creation fails for the requested shape, the
diagnostic is logged, the caller receives no usable collider (no physics
object at all), and nothing is registered: the shared physics-objects list is
unchanged. -/
theorem addPhysics_failed_collider_not_registered (api : RapierDescAPI)
    (st : PhysicsState) (meshPosition : Vec3) (rigidBodyType : String)
    (autoAnimate : Bool) (colliderType : Option String)
    (settings : ColliderSettings)
    (hfail : colliderDescOf api colliderType settings = none) :
    (addPhysics api st meshPosition rigidBodyType autoAnimate
        colliderType settings).2 = none ∧
    (addPhysics api st meshPosition rigidBodyType autoAnimate
        colliderType settings).1.physicsObjects = st.physicsObjects ∧
    colliderMeshError ∈ (addPhysics api st meshPosition rigidBodyType autoAnimate
        colliderType settings).1.log := by
  refine ⟨?_, ?_, ?_⟩ <;> simp [addPhysics, hfail]

/-- Witness for C9: a capsule request whose descriptor constructor fails. -/
theorem addPhysics_failed_collider_not_registered_witness :
    (addPhysics
        { mkCuboid := fun w h d => some (ColliderDesc.cuboid w h d),
          mkBall := fun r => some (ColliderDesc.ball r),
          mkCapsule := fun _ _ => none, mkTrimesh := some ColliderDesc.trimesh }
        { physicsObjects := [], log := [] } ⟨0, 10, 0⟩
        "kinematicPositionBased" false (some "capsule")
        { width := 0, height := 0, depth := 0, radius := 0.5, halfHeight := 0.5 }).2 =
      none ∧
    (addPhysics
        { mkCuboid := fun w h d => some (ColliderDesc.cuboid w h d),
          mkBall := fun r => some (ColliderDesc.ball r),
          mkCapsule := fun _ _ => none, mkTrimesh := some ColliderDesc.trimesh }
        { physicsObjects := [], log := [] } ⟨0, 10, 0⟩
        "kinematicPositionBased" false (some "capsule")
        { width := 0, height := 0, depth := 0, radius := 0.5, halfHeight := 0.5 }).1.physicsObjects =
      ([] : List PhysicsObjectM) ∧
    colliderMeshError ∈ (addPhysics
        { mkCuboid := fun w h d => some (ColliderDesc.cuboid w h d),
          mkBall := fun r => some (ColliderDesc.ball r),
          mkCapsule := fun _ _ => none, mkTrimesh := some ColliderDesc.trimesh }
        { physicsObjects := [], log := [] } ⟨0, 10, 0⟩
        "kinematicPositionBased" false (some "capsule")
        { width := 0, height := 0, depth := 0, radius := 0.5, halfHeight := 0.5 }).1.log := by
  exact addPhysics_failed_collider_not_registered _ _ _ _ _ _ _ (by simp [colliderDescOf])
